import Mathlib

/-!
Verification of the flowingcharts drawing abstraction layer: a shallow
embedding of the svg (vector) and canvas (raster) drawing modules and,
for parts of the system that live outside the drawing sources (the color
resolver and the backend-selection state machine), models built from the
specification.  JavaScript numbers are embedded as rationals; a possibly
undefined number is an Option.  Functions that can throw are embedded in
Except; an error result abstracts away the in-place element mutations
performed before the throw.
-/

/-- Colors as consumed and produced by the color resolver.  The constructor
cnone stands for the string 'none' used by the svg module when no color is
given; rgba is a normalized color with an alpha channel. -/
inductive Color where
  | cnone
  | rgba (r g b : ℕ) (a : ℚ)
deriving DecidableEq, Repr

/-- Modelled from the spec: the Color Resolver (module color, not under
src/) converts a color string to a normalized RGBA string; when an explicit
alpha value is supplied it overrides any alpha embedded in the color
(spec sections 2, 4.3 and 6: color-string to normalized-RGBA(+alpha-override)
conversion).  A none-equivalent color stays none. -/
def toRGBA (c : Color) (alpha : Option ℚ) : Color :=
  match c, alpha with
  | Color.cnone, _ => Color.cnone
  | Color.rgba r g b a, Option.none => Color.rgba r g b a
  | Color.rgba r g b _, Option.some o => Color.rgba r g b o

/-- Attribute values written by dom.attr: numbers, strings or colors. -/
inductive AttrVal where
  | num (q : ℚ)
  | str (s : String)
  | color (c : Color)
deriving DecidableEq, Repr

/-- A DOM/SVG element: a tag, an attribute map (setAttribute semantics)
and an ordered child list. -/
structure Node where
  tag : String
  attrs : String → Option AttrVal
  children : List Node

/-- Embeds element.setAttribute(k, v): the attribute map is updated at k. -/
def setAttribute (el : Node) (k : String) (v : AttrVal) : Node :=
  { el with attrs := fun k2 => if k2 = k then Option.some v else el.attrs k2 }

/-- Embeds dom.attr(element, attributes): sets each attribute in turn. -/
def domAttr (el : Node) (attributes : List (String × AttrVal)) : Node :=
  attributes.foldl (fun e p => setAttribute e p.1 p.2) el

/-- Embeds dom.appendChild(parentElement, childElement). -/
def domAppendChild (parentElement childElement : Node) : Node :=
  { parentElement with children := parentElement.children ++ [childElement] }

/-- Embeds dom.empty(element): the while loop removes the first child until
none is left, so the net effect is an empty child list. -/
def domEmpty (el : Node) : Node :=
  { el with children := [] }

/-- Embeds dom.createSVGElement / createElement restricted to what the
drawing modules need: a fresh element of the given type with no
attributes and no children. -/
def domCreateElement (type : String) : Node :=
  { tag := type, attrs := fun _ => Option.none, children := [] }

/-- The optional style object passed to every draw call.  All fields are
optional; absent means the property is undefined in JavaScript. -/
structure Style where
  fillColor : Option Color
  fillOpacity : Option ℚ
  lineColor : Option Color
  lineWidth : Option ℚ
  lineJoin : Option String
  lineCap : Option String
  lineOpacity : Option ℚ
deriving DecidableEq, Repr

/-- Errors thrown by the embedded JavaScript code. -/
inductive JsErr where
  | typeError (msg : String)
deriving DecidableEq, Repr

/-- Embeds the private svg draw(element, style) routine for a defined
style object: resolve the fill color (the string 'none' when
style.fillColor is undefined), re-resolve with the explicit fill opacity
unless the color is 'none', do the same for the stroke, default width,
join and cap, and write the five presentation attributes. -/
def svgDrawCore (element : Node) (style : Style) : Node :=
  let fillColor :=
    match style.fillColor with
    | Option.some c => toRGBA c Option.none
    | Option.none => Color.cnone
  let fillColor :=
    match style.fillOpacity with
    | Option.some o => if fillColor = Color.cnone then fillColor else toRGBA fillColor (Option.some o)
    | Option.none => fillColor
  let lineWidth := style.lineWidth.getD 1
  let lineJoin := style.lineJoin.getD "round"
  let lineCap := style.lineCap.getD "butt"
  let lineColor :=
    match style.lineColor with
    | Option.some c => toRGBA c Option.none
    | Option.none => Color.cnone
  let lineColor :=
    match style.lineOpacity with
    | Option.some o => if lineColor = Color.cnone then lineColor else toRGBA lineColor (Option.some o)
    | Option.none => lineColor
  domAttr element
    [ ("fill", AttrVal.color fillColor),
      ("stroke", AttrVal.color lineColor),
      ("stroke-width", AttrVal.num lineWidth),
      ("stroke-linejoin", AttrVal.str lineJoin),
      ("stroke-linecap", AttrVal.str lineCap) ]

/-- Embeds the svg draw routine including the unguarded property access:
when the style argument is undefined, reading style.fillColor throws a
TypeError. -/
def svgDraw (element : Node) (style : Option Style) : Except JsErr Node :=
  match style with
  | Option.none => Except.error (JsErr.typeError "Cannot read property fillColor of undefined")
  | Option.some st => Except.ok (svgDrawCore element st)

/-- Embeds svg isSupported via the environment's document feature query. -/
structure Env where
  hasFeature : String → String → Bool
  canvas2d : Bool

/-- Embeds the svg module isSupported(). -/
def svgIsSupported (e : Env) : Bool :=
  e.hasFeature "http://www.w3.org/TR/SVG11/feature#Shape" "1.0"

/-- Embeds the canvas module isSupported(): whether a 2d context can be
obtained from a newly created canvas element. -/
def canvasIsSupported (e : Env) : Bool :=
  e.canvas2d

/-- Embeds svg getContext(parentElement, type): creates an element of the
given type, appends it to the parent, and returns it.  The result pairs
the updated parent with the created element. -/
def svgGetContext (parentElement : Node) (type : String) : Node × Node :=
  let element := domCreateElement type
  (domAppendChild parentElement element, element)

/-- Embeds svg clear(element): the function body is empty, so the element
is returned unchanged. -/
def svgClear (element : Node) : Node :=
  element

/-- Embeds svg empty(element): dom.empty removes every child node. -/
def svgEmpty (element : Node) : Node :=
  domEmpty element

/-- Embeds svg circle(element, cx, cy, r, style). -/
def svgCircle (element : Node) (cx cy r : ℚ) (style : Option Style) : Except JsErr Node :=
  svgDraw (domAttr element [("cx", AttrVal.num cx), ("cy", AttrVal.num cy), ("r", AttrVal.num r)]) style

/-- Embeds svg ellipse(element, cx, cy, rx, ry, style). -/
def svgEllipse (element : Node) (cx cy rx ry : ℚ) (style : Option Style) : Except JsErr Node :=
  svgDraw (domAttr element [("cx", AttrVal.num cx), ("cy", AttrVal.num cy), ("rx", AttrVal.num rx), ("ry", AttrVal.num ry)]) style

/-- Embeds svg rect(element, x, y, w, h, style). -/
def svgRect (element : Node) (x y w h : ℚ) (style : Option Style) : Except JsErr Node :=
  svgDraw (domAttr element [("x", AttrVal.num x), ("y", AttrVal.num y), ("width", AttrVal.num w), ("height", AttrVal.num h)]) style

/-- Embeds svg line(element, x1, y1, x2, y2, style). -/
def svgLine (element : Node) (x1 y1 x2 y2 : ℚ) (style : Option Style) : Except JsErr Node :=
  svgDraw (domAttr element [("x1", AttrVal.num x1), ("y1", AttrVal.num y1), ("x2", AttrVal.num x2), ("y2", AttrVal.num y2)]) style

/-- Embeds the loop of getCoordsAsString: the index i advances by two; at
each step arrCoords[i] is defined but arrCoords[i+1] may be out of range,
in which case JavaScript concatenates the string undefined.  The Bool
argument tracks whether this is the first iteration (i equal to 0), which
suppresses the leading comma. -/
def gcsGo : List ℚ → Bool → String → String
  | [], _, acc => acc
  | [x], first, acc =>
      (if first then acc else acc ++ ",") ++ toString x ++ " " ++ "undefined"
  | x :: y :: rest, first, acc =>
      gcsGo rest false ((if first then acc else acc ++ ",") ++ toString x ++ " " ++ toString y)

/-- Embeds getCoordsAsString(arrCoords). -/
def getCoordsAsString (arrCoords : List ℚ) : String :=
  gcsGo arrCoords true ""

/-- Embeds svg polyline(element, arrCoords, style). -/
def svgPolyline (element : Node) (arrCoords : List ℚ) (style : Option Style) : Except JsErr Node :=
  svgDraw (domAttr element [("points", AttrVal.str (getCoordsAsString arrCoords))]) style

/-- Embeds svg polygon(element, arrCoords, style). -/
def svgPolygon (element : Node) (arrCoords : List ℚ) (style : Option Style) : Except JsErr Node :=
  svgDraw (domAttr element [("points", AttrVal.str (getCoordsAsString arrCoords))]) style

/-- Path commands issued against a canvas 2d context.  Coordinates are
optional rationals: Option.none stands for an undefined argument (which
the host coerces to NaN).  The arc constructor records the single call
shape used by the source, arc(cx, cy, r, 0, 2*Math.PI, false), a full
360-degree arc. -/
inductive PathCmd where
  | moveTo (x y : Option ℚ)
  | lineTo (x y : Option ℚ)
  | bezierCurveTo (c1x c1y c2x c2y x y : Option ℚ)
  | rectPath (x y w h : Option ℚ)
  | arc (cx cy r : Option ℚ)
  | closePath
deriving DecidableEq, Repr

/-- Paint commands recorded when fill() or stroke() is called, carrying
the path and the context settings in effect at that moment. -/
inductive PaintOp where
  | fillOp (path : List PathCmd) (fillStyle : Color)
  | strokeOp (path : List PathCmd) (strokeStyle : Color) (lineWidth : ℚ) (lineJoin lineCap : String)
deriving DecidableEq, Repr

/-- A canvas 2d context: the current path, the style settings and the
sequence of paint operations issued so far. -/
structure Ctx where
  path : List PathCmd
  fillStyle : Color
  strokeStyle : Color
  lineWidth : ℚ
  lineJoin : String
  lineCap : String
  ops : List PaintOp
deriving DecidableEq, Repr

/-- Embeds ctx.beginPath(): starts a fresh path. -/
def beginPath (ctx : Ctx) : Ctx :=
  { ctx with path := [] }

/-- Appends one command to the current path. -/
def addCmd (ctx : Ctx) (c : PathCmd) : Ctx :=
  { ctx with path := ctx.path ++ [c] }

/-- Embeds ctx.fill(): paints the current path with the current fillStyle. -/
def ctxFill (ctx : Ctx) : Ctx :=
  { ctx with ops := ctx.ops ++ [PaintOp.fillOp ctx.path ctx.fillStyle] }

/-- Embeds ctx.stroke(): paints the current path with the current stroke
settings. -/
def ctxStroke (ctx : Ctx) : Ctx :=
  { ctx with ops := ctx.ops ++ [PaintOp.strokeOp ctx.path ctx.strokeStyle ctx.lineWidth ctx.lineJoin ctx.lineCap] }

/-- Embeds the private canvas draw(ctx, style) routine.  When the style
argument is undefined, the first property access throws a TypeError.
Fill runs before stroke; a fill is issued only when fillColor is defined;
a stroke only when lineColor is defined and lineWidth is not 0 (an
undefined lineWidth passes this test and defaults to 1). -/
def canvasDraw (ctx : Ctx) (style : Option Style) : Except JsErr Ctx :=
  match style with
  | Option.none => Except.error (JsErr.typeError "Cannot read property fillColor of undefined")
  | Option.some st =>
    let ctx :=
      match st.fillColor with
      | Option.some fc =>
          let ctx := { ctx with fillStyle :=
            match st.fillOpacity with
            | Option.some o => toRGBA fc (Option.some o)
            | Option.none => toRGBA fc Option.none }
          ctxFill ctx
      | Option.none => ctx
    let ctx :=
      match st.lineColor with
      | Option.some lc =>
          if st.lineWidth = Option.some 0 then ctx
          else
            let ctx := { ctx with
              lineWidth := st.lineWidth.getD 1,
              lineJoin := st.lineJoin.getD "round",
              lineCap := st.lineCap.getD "butt",
              strokeStyle :=
                match st.lineOpacity with
                | Option.some o => toRGBA lc (Option.some o)
                | Option.none => toRGBA lc Option.none }
            ctxStroke ctx
      | Option.none => ctx
    Except.ok ctx

/-- Embeds canvas clear/empty: clearRect over the full backing rectangle.
In this embedding the observable effect is that no recorded paint
operations remain; the path and settings are untouched. -/
def canvasEmpty (ctx : Ctx) : Ctx :=
  { ctx with ops := [] }

/-- Embeds canvas circle(ctx, cx, cy, r, style): a fresh path, one full
arc, then draw. -/
def canvasCircle (ctx : Ctx) (cx cy r : ℚ) (style : Option Style) : Except JsErr Ctx :=
  let ctx := beginPath ctx
  let ctx := addCmd ctx (PathCmd.arc (Option.some cx) (Option.some cy) (Option.some r))
  canvasDraw ctx style

/-- The cubic Bezier circle-approximation constant 0.5522848 used by
canvas ellipse. -/
def kappa : ℚ := 5522848 / 10000000

/-- Embeds canvas ellipse(ctx, cx, cy, rx, ry, style): four cubic Bezier
segments anchored at the cardinal points with control offsets rx*kappa
and ry*kappa. -/
def canvasEllipse (ctx : Ctx) (cx cy rx ry : ℚ) (style : Option Style) : Except JsErr Ctx :=
  let x := cx - rx
  let y := cy - ry
  let xe := cx + rx
  let ye := cy + ry
  let ox := rx * kappa
  let oy := ry * kappa
  let ctx := beginPath ctx
  let ctx := addCmd ctx (PathCmd.moveTo (Option.some x) (Option.some cy))
  let ctx := addCmd ctx (PathCmd.bezierCurveTo (Option.some x) (Option.some (cy - oy)) (Option.some (cx - ox)) (Option.some y) (Option.some cx) (Option.some y))
  let ctx := addCmd ctx (PathCmd.bezierCurveTo (Option.some (cx + ox)) (Option.some y) (Option.some xe) (Option.some (cy - oy)) (Option.some xe) (Option.some cy))
  let ctx := addCmd ctx (PathCmd.bezierCurveTo (Option.some xe) (Option.some (cy + oy)) (Option.some (cx + ox)) (Option.some ye) (Option.some cx) (Option.some ye))
  let ctx := addCmd ctx (PathCmd.bezierCurveTo (Option.some (cx - ox)) (Option.some ye) (Option.some x) (Option.some (cy + oy)) (Option.some x) (Option.some cy))
  canvasDraw ctx style

/-- Embeds canvas rect(ctx, x, y, w, h, style). -/
def canvasRect (ctx : Ctx) (x y w h : ℚ) (style : Option Style) : Except JsErr Ctx :=
  let ctx := beginPath ctx
  let ctx := addCmd ctx (PathCmd.rectPath (Option.some x) (Option.some y) (Option.some w) (Option.some h))
  canvasDraw ctx style

/-- Embeds canvas line(ctx, x1, y1, x2, y2, style). -/
def canvasLine (ctx : Ctx) (x1 y1 x2 y2 : ℚ) (style : Option Style) : Except JsErr Ctx :=
  let ctx := beginPath ctx
  let ctx := addCmd ctx (PathCmd.moveTo (Option.some x1) (Option.some y1))
  let ctx := addCmd ctx (PathCmd.lineTo (Option.some x2) (Option.some y2))
  canvasDraw ctx style

/-- Embeds the loop of canvas polyline: x is arrCoords[i] and y is
arrCoords[i+1], which is undefined past the end of an odd-length list;
the first pair is a moveTo and later pairs are lineTo. -/
def polyTraceGo : List ℚ → Bool → Ctx → Ctx
  | [], _, ctx => ctx
  | [x], first, ctx =>
      addCmd ctx (if first then PathCmd.moveTo (Option.some x) Option.none
                  else PathCmd.lineTo (Option.some x) Option.none)
  | x :: y :: rest, first, ctx =>
      polyTraceGo rest false
        (addCmd ctx (if first then PathCmd.moveTo (Option.some x) (Option.some y)
                     else PathCmd.lineTo (Option.some x) (Option.some y)))

/-- A dynamically passed argument of a JavaScript call: the canvas
polyline function can receive a coordinate array where its context
parameter is expected, which is how the polygon bug manifests. -/
inductive JsArg where
  | undef
  | coords (l : List ℚ)
  | context (c : Ctx)

/-- Embeds canvas polyline(ctx, arrCoords, style) with JavaScript calling
semantics.  If the first argument is not a context, ctx.beginPath() throws
a TypeError; if the coordinate argument is undefined, arrCoords.length
throws. -/
def canvasPolylineJs (ctxArg : JsArg) (coordsArg : JsArg) (styleArg : Option Style) : Except JsErr Ctx :=
  match ctxArg with
  | JsArg.context ctx =>
    match coordsArg with
    | JsArg.coords arrCoords =>
        let ctx := beginPath ctx
        let ctx := polyTraceGo arrCoords true ctx
        canvasDraw ctx styleArg
    | JsArg.context _ =>
        let ctx := beginPath ctx
        let ctx := polyTraceGo [] true ctx
        canvasDraw ctx styleArg
    | JsArg.undef => Except.error (JsErr.typeError "Cannot read property length of undefined")
  | _ => Except.error (JsErr.typeError "ctx.beginPath is not a function")

/-- Embeds canvas polyline as called with a real context and array. -/
def canvasPolyline (ctx : Ctx) (arrCoords : List ℚ) (style : Option Style) : Except JsErr Ctx :=
  canvasPolylineJs (JsArg.context ctx) (JsArg.coords arrCoords) style

/-- Embeds canvas polygon(ctx, arrCoords, style).  The source calls
polyline(arrCoords), passing the coordinate array in the context position
and nothing else, so the inner call throws before closePath and draw can
run. -/
def canvasPolygon (ctx : Ctx) (arrCoords : List ℚ) (style : Option Style) : Except JsErr Ctx := do
  let _ ← canvasPolylineJs (JsArg.coords arrCoords) JsArg.undef Option.none
  let ctx := addCmd ctx PathCmd.closePath
  canvasDraw ctx style

/-- Identifiers of the two rendering backends. -/
inductive BackendId where
  | svg
  | canvas
deriving DecidableEq, Repr

/-- Modelled from the spec: the backend-selection state machine of spec
section 4.4 is not under src/ (only the two isSupported probes are); its
states are untested and resolved (a backend id or none). -/
inductive SelState where
  | untested
  | resolved (b : Option BackendId)
deriving DecidableEq, Repr

/-- Modelled from the spec: probe the Vector Backend first, then the
Raster Backend, in that fixed priority order; the first that reports
support is selected, otherwise the selection is none. -/
def probeBackends (e : Env) : Option BackendId :=
  if svgIsSupported e then Option.some BackendId.svg
  else if canvasIsSupported e then Option.some BackendId.canvas
  else Option.none

/-- Modelled from the spec: on first query the probe result is cached for
the process; an already resolved state is returned unchanged. -/
def selectStep (e : Env) : SelState → SelState
  | SelState.untested => SelState.resolved (probeBackends e)
  | SelState.resolved b => SelState.resolved b

/-- Failure raised when drawing without a usable backend. -/
inductive DrawFailure where
  | configurationError (msg : String)
deriving DecidableEq, Repr

/-- Modelled from the spec: a draw call dispatched while the selection is
resolved to none fails with a configuration error rather than silently
doing nothing. -/
def dispatchDraw (e : Env) (s : SelState) : Except DrawFailure BackendId :=
  match selectStep e s with
  | SelState.resolved (Option.some b) => Except.ok b
  | _ => Except.error (DrawFailure.configurationError "no supported rendering backend")

/-- Complete (x, y) pairs of an interleaved coordinate list. -/
def pairsOf : List ℚ → List (ℚ × ℚ)
  | x :: y :: rest => (x, y) :: pairsOf rest
  | _ => []

/-- Stated from the claim for comparison with getCoordsAsString: pairs
separated by commas, the two coordinates of a pair separated by a single
space, the empty list giving the empty string. -/
def specPointString : List (ℚ × ℚ) → String
  | [] => ""
  | [p] => toString p.1 ++ " " ++ toString p.2
  | p :: rest => toString p.1 ++ " " ++ toString p.2 ++ "," ++ specPointString rest

/-- Rendering of every pair after the first, each preceded by its comma
separator; used to relate the loop of getCoordsAsString to
specPointString. -/
def joinTail : List (ℚ × ℚ) → String
  | [] => ""
  | p :: ps => "," ++ (toString p.1 ++ " " ++ toString p.2) ++ joinTail ps

/-- Resolution of a present color through the resolver with an optional
explicit opacity.  The canvas draw routine applies exactly this scheme to
the fill color with fillOpacity and to the line color with lineOpacity. -/
def resolveWithOpacity (c : Color) (o : Option ℚ) : Color :=
  match o with
  | Option.some o2 => toRGBA c (Option.some o2)
  | Option.none => toRGBA c Option.none

/-- A style object with every property undefined. -/
def styleEmpty : Style :=
  ⟨Option.none, Option.none, Option.none, Option.none, Option.none, Option.none, Option.none⟩

/-- The style object of the polygon scenario: fillColor blue, everything
else undefined. -/
def styleBlueFill : Style :=
  ⟨Option.some (Color.rgba 0 0 255 1), Option.none, Option.none, Option.none, Option.none, Option.none, Option.none⟩

/-- A freshly obtained canvas 2d context with its default settings. -/
def ctxInit : Ctx :=
  ⟨[], Color.rgba 0 0 0 1, Color.rgba 0 0 0 1, 1, "miter", "butt", []⟩

/-- An svg surface holding exactly one shape node. -/
def elOneChild : Node :=
  domAppendChild (domCreateElement "svg") (domCreateElement "circle")

/-- An environment in which both backends report support. -/
def envBoth : Env :=
  ⟨fun _ _ => true, true⟩

/-- An environment in which neither backend reports support. -/
def envNone : Env :=
  ⟨fun _ _ => false, false⟩

/-- An environment in which only the raster backend reports support. -/
def envCanvasOnly : Env :=
  ⟨fun _ _ => false, true⟩

/-- A fully populated style used to witness the opacity-override claim:
both colors carry an embedded alpha of 1 while the explicit opacities are
1/2, and the line width is 2. -/
def styleC1W : Style :=
  ⟨Option.some (Color.rgba 10 20 30 1), Option.some (1/2),
   Option.some (Color.rgba 10 20 30 1), Option.some 2,
   Option.none, Option.none, Option.some (1/2)⟩

/-- The fill paint operations a canvas draw call records over a given
path: one fill with the opacity-resolved fill color when a fill color is
present, nothing otherwise. -/
def fillPart (st : Style) (path : List PathCmd) : List PaintOp :=
  match st.fillColor with
  | Option.some fc => [PaintOp.fillOp path (resolveWithOpacity fc st.fillOpacity)]
  | Option.none => []

/-- The stroke paint operations a canvas draw call records over a given
path: one stroke exactly when a line color is present and the effective
line width (defaulting to 1) is nonzero, carrying the defaults round and
butt and the opacity-resolved line color; nothing otherwise. -/
def strokePart (st : Style) (path : List PathCmd) : List PaintOp :=
  if st.lineColor.isSome ∧ st.lineWidth.getD 1 ≠ 0
  then [PaintOp.strokeOp path
          (resolveWithOpacity (st.lineColor.getD Color.cnone) st.lineOpacity)
          (st.lineWidth.getD 1) (st.lineJoin.getD "round") (st.lineCap.getD "butt")]
  else []

/-- The path the canvas polyline loop constructs: a moveTo for the first
pair and a lineTo for each later pair, with an undefined y at the end of
an odd-length list. -/
def polyTracePath : List ℚ → Bool → List PathCmd
  | [], _ => []
  | [x], first =>
      [if first then PathCmd.moveTo (Option.some x) Option.none
       else PathCmd.lineTo (Option.some x) Option.none]
  | x :: y :: rest, first =>
      (if first then PathCmd.moveTo (Option.some x) (Option.some y)
       else PathCmd.lineTo (Option.some x) (Option.some y)) :: polyTracePath rest false

/-- The path the canvas ellipse operation constructs: a moveTo to the
west cardinal point and four cubic Bezier segments with control offsets
rx*kappa and ry*kappa. -/
def ellipseTrace (cx cy rx ry : ℚ) : List PathCmd :=
  [ PathCmd.moveTo (Option.some (cx - rx)) (Option.some cy),
    PathCmd.bezierCurveTo (Option.some (cx - rx)) (Option.some (cy - ry * kappa))
      (Option.some (cx - rx * kappa)) (Option.some (cy - ry))
      (Option.some cx) (Option.some (cy - ry)),
    PathCmd.bezierCurveTo (Option.some (cx + rx * kappa)) (Option.some (cy - ry))
      (Option.some (cx + rx)) (Option.some (cy - ry * kappa))
      (Option.some (cx + rx)) (Option.some cy),
    PathCmd.bezierCurveTo (Option.some (cx + rx)) (Option.some (cy + ry * kappa))
      (Option.some (cx + rx * kappa)) (Option.some (cy + ry))
      (Option.some cx) (Option.some (cy + ry)),
    PathCmd.bezierCurveTo (Option.some (cx - rx * kappa)) (Option.some (cy + ry))
      (Option.some (cx - rx)) (Option.some (cy + ry * kappa))
      (Option.some (cx - rx)) (Option.some cy) ]

/-- A style with a line color present and line width 2, under which the
original stroke claim demands a stroke from every raster operation. -/
def styleC6cx : Style :=
  ⟨Option.none, Option.none, Option.some (Color.rgba 0 0 0 1), Option.some 2,
   Option.none, Option.none, Option.none⟩

/-- Unfolding lemma relating specPointString to its comma-prefixed tail
rendering. -/
theorem specPointString_cons (p : ℚ × ℚ) (ps : List (ℚ × ℚ)) :
    specPointString (p :: ps) = toString p.1 ++ " " ++ toString p.2 ++ joinTail ps := by
  induction ps generalizing p with
  | nil => simp [specPointString, joinTail]
  | cons q ps ih => simp [specPointString, joinTail, ih q, String.append_assoc]

/-- The getCoordsAsString loop, entered past the first pair, appends the
comma-prefixed rendering of the remaining pairs when the list has even
length. -/
theorem gcsGo_even (l : List ℚ) (h : l.length % 2 = 0) (acc : String) :
    gcsGo l false acc = acc ++ joinTail (pairsOf l) := by
  match l with
  | [] => simp [gcsGo, pairsOf, joinTail]
  | [x] => simp at h
  | x :: y :: rest =>
    have h2 : rest.length % 2 = 0 := by simp [List.length_cons] at h; omega
    simp only [gcsGo, if_neg Bool.false_ne_true]
    rw [gcsGo_even rest h2]
    simp [pairsOf, joinTail, String.append_assoc]
termination_by l.length

/-- For an even-length coordinate list the rendered point string has
exactly the claimed shape. -/
theorem getCoordsAsString_even (l : List ℚ) (h : l.length % 2 = 0) :
    getCoordsAsString l = specPointString (pairsOf l) := by
  match l with
  | [] => rfl
  | [x] => simp at h
  | x :: y :: rest =>
    have h2 : rest.length % 2 = 0 := by simp [List.length_cons] at h; omega
    show gcsGo (x :: y :: rest) true "" = _
    simp only [gcsGo, if_pos rfl]
    rw [gcsGo_even rest h2]
    simp [pairsOf, specPointString_cons, String.append_assoc]

/-- For an odd-length coordinate list the rendered point string ends with
the text undefined. -/
theorem gcsGo_odd (l : List ℚ) (h : l.length % 2 = 1) (first : Bool) (acc : String) :
    ∃ s, gcsGo l first acc = s ++ "undefined" := by
  match l with
  | [] => simp at h
  | [x] => exact ⟨((if first then acc else acc ++ ",") ++ toString x) ++ " ", rfl⟩
  | x :: y :: rest =>
    have h2 : rest.length % 2 = 1 := by simp [List.length_cons] at h; omega
    exact gcsGo_odd rest h2 false _
termination_by l.length

/-- A canvas draw call with a defined style object never throws. -/
theorem canvasDraw_isOk (ctx : Ctx) (st : Style) :
    (canvasDraw ctx (Option.some st)).isOk = true := rfl

/-- The fill style after a canvas draw call: the fill color resolved with
the optional explicit fill opacity when a fill color is present, the old
setting otherwise. -/
theorem canvasDraw_fillStyle (ctx : Ctx) (st : Style) :
    (canvasDraw ctx (Option.some st)).map Ctx.fillStyle
      = Except.ok (match st.fillColor with
                   | Option.some fc => resolveWithOpacity fc st.fillOpacity
                   | Option.none => ctx.fillStyle) := by
  rcases st with ⟨fc, fo, lc, lw, lj, lcap, lo⟩
  rcases fc with _ | fc <;> rcases lc with _ | lc <;> by_cases hlw : lw = Option.some 0 <;>
    simp [canvasDraw, ctxFill, ctxStroke, resolveWithOpacity, Except.map, hlw]

/-- The stroke style after a canvas draw call: the line color resolved
with the optional explicit line opacity when a stroke is issued, the old
setting otherwise. -/
theorem canvasDraw_strokeStyle (ctx : Ctx) (st : Style) :
    (canvasDraw ctx (Option.some st)).map Ctx.strokeStyle
      = Except.ok (if st.lineColor.isSome ∧ st.lineWidth ≠ Option.some 0
                   then resolveWithOpacity (st.lineColor.getD Color.cnone) st.lineOpacity
                   else ctx.strokeStyle) := by
  rcases st with ⟨fc, fo, lc, lw, lj, lcap, lo⟩
  rcases fc with _ | fc <;> rcases lc with _ | lc <;> by_cases hlw : lw = Option.some 0 <;>
    simp [canvasDraw, ctxFill, ctxStroke, resolveWithOpacity, Except.map, hlw]

/-- The paint operations recorded by a canvas draw call: the previous
operations, then a fill when a fill color is present, then a stroke
exactly when a line color is present and the effective line width
(defaulting to 1) is nonzero, with effective join and cap defaults round
and butt and both colors resolved by the same opacity-override scheme. -/
theorem canvasDraw_ops (ctx : Ctx) (st : Style) :
    (canvasDraw ctx (Option.some st)).map Ctx.ops
      = Except.ok (ctx.ops
          ++ (match st.fillColor with
              | Option.some fc => [PaintOp.fillOp ctx.path (resolveWithOpacity fc st.fillOpacity)]
              | Option.none => [])
          ++ (if st.lineColor.isSome ∧ st.lineWidth.getD 1 ≠ 0
              then [PaintOp.strokeOp ctx.path
                      (resolveWithOpacity (st.lineColor.getD Color.cnone) st.lineOpacity)
                      (st.lineWidth.getD 1) (st.lineJoin.getD "round") (st.lineCap.getD "butt")]
              else [])) := by
  rcases st with ⟨fc, fo, lc, lw, lj, lcap, lo⟩
  rcases lw with _ | w
  · rcases fc with _ | fc <;> rcases lc with _ | lc <;>
      simp [canvasDraw, ctxFill, ctxStroke, resolveWithOpacity, Except.map]
  · by_cases hw : w = 0 <;> rcases fc with _ | fc <;> rcases lc with _ | lc <;>
      simp [canvasDraw, ctxFill, ctxStroke, resolveWithOpacity, Except.map, hw]

/-- The operation list of a canvas draw call, phrased with the fill and
stroke part functions over the current path. -/
theorem canvasDraw_ops_parts (ctx : Ctx) (st : Style) :
    (canvasDraw ctx (Option.some st)).map Ctx.ops
      = Except.ok (ctx.ops ++ fillPart st ctx.path ++ strokePart st ctx.path) := by
  rw [canvasDraw_ops]
  rcases st with ⟨fc, fo, lc, lw, lj, lcap, lo⟩
  rcases fc with _ | fc <;> simp [fillPart, strokePart]

/-- The canvas polyline loop only appends its trace to the current path,
leaving every other context field unchanged. -/
theorem polyTraceGo_eq (l : List ℚ) (first : Bool) (ctx : Ctx) :
    polyTraceGo l first ctx = { ctx with path := ctx.path ++ polyTracePath l first } := by
  match l with
  | [] => simp [polyTraceGo, polyTracePath]
  | [x] => simp [polyTraceGo, polyTracePath, addCmd]
  | x :: y :: rest =>
    show polyTraceGo rest false _ = _
    rw [polyTraceGo_eq rest false]
    simp [addCmd, polyTracePath]
termination_by l.length

/-- C1: for a Style Descriptor with both a fill color and an explicit
fill opacity set (and analogously line color and line opacity), both
backends pass the explicit opacity through the Color Resolver, so the
fill (resp. stroke) color they use carries the explicit opacity as its
alpha channel, overriding the alpha embedded in the color itself. -/
theorem C1_explicit_opacity_overrides_alpha (st : Style) (el : Node) (ctx : Ctx)
    (r g b : ℕ) (a o : ℚ) :
    (st.fillColor = Option.some (Color.rgba r g b a) → st.fillOpacity = Option.some o →
      (svgDraw el (Option.some st)).map (fun n => n.attrs "fill")
        = Except.ok (Option.some (AttrVal.color (Color.rgba r g b o)))) ∧
    (st.lineColor = Option.some (Color.rgba r g b a) → st.lineOpacity = Option.some o →
      (svgDraw el (Option.some st)).map (fun n => n.attrs "stroke")
        = Except.ok (Option.some (AttrVal.color (Color.rgba r g b o)))) ∧
    (st.fillColor = Option.some (Color.rgba r g b a) → st.fillOpacity = Option.some o →
      (canvasDraw ctx (Option.some st)).map Ctx.fillStyle = Except.ok (Color.rgba r g b o)) ∧
    (st.lineColor = Option.some (Color.rgba r g b a) → st.lineOpacity = Option.some o →
      st.lineWidth ≠ Option.some 0 →
      (canvasDraw ctx (Option.some st)).map Ctx.strokeStyle = Except.ok (Color.rgba r g b o)) := by
  refine ⟨?_, ?_, ?_, ?_⟩
  · intro h1 h2
    simp [svgDraw, svgDrawCore, domAttr, setAttribute, toRGBA, h1, h2, Except.map]
  · intro h1 h2
    simp [svgDraw, svgDrawCore, domAttr, setAttribute, toRGBA, h1, h2, Except.map]
  · intro h1 h2
    rw [canvasDraw_fillStyle]
    simp [h1, h2, resolveWithOpacity, toRGBA]
  · intro h1 h2 h3
    rw [canvasDraw_strokeStyle]
    simp [h1, h2, h3, resolveWithOpacity, toRGBA]

/-- Witness for C1 at a concrete style whose colors embed alpha 1 while
the explicit opacities are 1/2: the resolved colors carry alpha 1/2. -/
theorem C1_explicit_opacity_overrides_alpha_witness :
    ((svgDraw (domCreateElement "circle") (Option.some styleC1W)).map (fun n => n.attrs "fill")
      = Except.ok (Option.some (AttrVal.color (Color.rgba 10 20 30 (1/2))))) ∧
    ((svgDraw (domCreateElement "circle") (Option.some styleC1W)).map (fun n => n.attrs "stroke")
      = Except.ok (Option.some (AttrVal.color (Color.rgba 10 20 30 (1/2))))) ∧
    ((canvasDraw ctxInit (Option.some styleC1W)).map Ctx.fillStyle
      = Except.ok (Color.rgba 10 20 30 (1/2))) ∧
    ((canvasDraw ctxInit (Option.some styleC1W)).map Ctx.strokeStyle
      = Except.ok (Color.rgba 10 20 30 (1/2))) := by
  obtain ⟨h1, h2, h3, h4⟩ :=
    C1_explicit_opacity_overrides_alpha styleC1W (domCreateElement "circle") ctxInit 10 20 30 1 (1/2)
  exact ⟨h1 rfl rfl, h2 rfl rfl, h3 rfl rfl, h4 rfl rfl (by decide)⟩

/-- C2 counterexample: an odd-length coordinate list does not make the
polyline operations fail; both backends complete the call without any
error. -/
theorem C2_counterexample_odd_list_succeeds :
    (svgPolyline (domCreateElement "polyline") [1] (Option.some styleEmpty)).isOk = true ∧
    (canvasPolyline ctxInit [1] (Option.some styleEmpty)).isOk = true :=
  ⟨rfl, rfl⟩

/-- C2 amended: odd-length Coordinate Lists are not validated and no
InvalidArgument error exists.  The svg polyline and polygon succeed,
rendering the text undefined as the final y coordinate of the points
attribute; the canvas polyline succeeds; the canvas polygon throws a
TypeError for every coordinate list because its internal polyline call
passes the coordinate array in the context position. -/
theorem C2_amended_odd_lists_not_validated (el : Node) (ctx : Ctx) (st : Style)
    (coords : List ℚ) (h : coords.length % 2 = 1) :
    (svgPolyline el coords (Option.some st)).isOk = true ∧
    (svgPolygon el coords (Option.some st)).isOk = true ∧
    (canvasPolyline ctx coords (Option.some st)).isOk = true ∧
    (∃ s, getCoordsAsString coords = s ++ "undefined") ∧
    (∀ (coords2 : List ℚ) (st2 : Style), canvasPolygon ctx coords2 (Option.some st2)
      = Except.error (JsErr.typeError "ctx.beginPath is not a function")) :=
  ⟨rfl, rfl, rfl, gcsGo_odd coords h true "", fun _ _ => rfl⟩

/-- Witness for the amended C2 at the concrete odd list with one entry. -/
theorem C2_amended_odd_lists_not_validated_witness :
    (svgPolyline (domCreateElement "polyline") [1] (Option.some styleEmpty)).isOk = true ∧
    (svgPolygon (domCreateElement "polyline") [1] (Option.some styleEmpty)).isOk = true ∧
    (canvasPolyline ctxInit [1] (Option.some styleEmpty)).isOk = true ∧
    getCoordsAsString [1] = "1 undefined" ∧
    canvasPolygon ctxInit [2, 3] (Option.some styleEmpty)
      = Except.error (JsErr.typeError "ctx.beginPath is not a function") := by
  obtain ⟨h1, h2, h3, -, h5⟩ :=
    C2_amended_odd_lists_not_validated (domCreateElement "polyline") ctxInit styleEmpty [1] (by decide)
  exact ⟨h1, h2, h3, rfl, h5 [2, 3] styleEmpty⟩

/-- C3: evaluation of the svg clear operation at a surface holding one
child: the body of clear is empty, so the child is still there, while the
sibling operation empty removes all children leaving tag and element in
place. -/
theorem C3_svg_clear_is_noop :
    svgClear elOneChild = elOneChild ∧
    elOneChild.children.length = 1 ∧
    (svgEmpty elOneChild).children.length = 0 ∧
    (svgEmpty elOneChild).tag = elOneChild.tag :=
  ⟨rfl, rfl, rfl, rfl⟩

/-- C4: the canvas polygon scenario of the claim throws instead of
painting: polygon passes its coordinate array where its internal polyline
call expects the drawing context, so beginPath is invoked on an array and
a TypeError is thrown before any path construction, fill or stroke. -/
theorem C4_canvas_polygon_scenario_throws :
    canvasPolygon ctxInit [0, 0, 10, 0, 10, 10, 0, 10] (Option.some styleBlueFill)
      = Except.error (JsErr.typeError "ctx.beginPath is not a function") :=
  rfl

/-- C5 counterexample: an svg shape operation adds no node at all; at a
concrete childless element the child count stays 0 instead of growing to
1 as the claim requires. -/
theorem C5_counterexample_no_node_added :
    ¬ (∀ (el : Node) (cx cy r : ℚ) (st : Style),
        (svgCircle el cx cy r (Option.some st)).map (fun n => n.children.length)
          = Except.ok (el.children.length + 1)) := by
  intro hall
  have h := hall (domCreateElement "circle") 0 0 1 styleEmpty
  simp [svgCircle, svgDraw, svgDrawCore, domAttr, setAttribute, domCreateElement,
        Except.map, styleEmpty] at h

/-- C5 amended: node creation and insertion happen in getContext, which
appends exactly one fresh element as the last child of the parent; the
shape operations themselves only set attributes on the supplied element,
leaving its children and tag unchanged, so a repeated call restyles the
same node instead of adding another. -/
theorem C5_amended_getContext_appends_one_node (parent : Node) (ty : String) (el : Node)
    (cx cy r rx ry x y w h x1 y1 x2 y2 : ℚ) (coords : List ℚ) (st : Style) :
    (svgGetContext parent ty).1.children = parent.children ++ [(svgGetContext parent ty).2] ∧
    (svgGetContext parent ty).2 = domCreateElement ty ∧
    ((svgCircle el cx cy r (Option.some st)).map Node.children = Except.ok el.children) ∧
    ((svgCircle el cx cy r (Option.some st)).map Node.tag = Except.ok el.tag) ∧
    ((svgEllipse el cx cy rx ry (Option.some st)).map Node.children = Except.ok el.children) ∧
    ((svgEllipse el cx cy rx ry (Option.some st)).map Node.tag = Except.ok el.tag) ∧
    ((svgRect el x y w h (Option.some st)).map Node.children = Except.ok el.children) ∧
    ((svgRect el x y w h (Option.some st)).map Node.tag = Except.ok el.tag) ∧
    ((svgLine el x1 y1 x2 y2 (Option.some st)).map Node.children = Except.ok el.children) ∧
    ((svgLine el x1 y1 x2 y2 (Option.some st)).map Node.tag = Except.ok el.tag) ∧
    ((svgPolyline el coords (Option.some st)).map Node.children = Except.ok el.children) ∧
    ((svgPolyline el coords (Option.some st)).map Node.tag = Except.ok el.tag) ∧
    ((svgPolygon el coords (Option.some st)).map Node.children = Except.ok el.children) ∧
    ((svgPolygon el coords (Option.some st)).map Node.tag = Except.ok el.tag) := by
  refine ⟨rfl, rfl, ?_, ?_, ?_, ?_, ?_, ?_, ?_, ?_, ?_, ?_, ?_, ?_⟩ <;>
    simp [svgCircle, svgEllipse, svgRect, svgLine, svgPolyline, svgPolygon,
          svgDraw, svgDrawCore, domAttr, setAttribute, Except.map]

/-- C6 counterexample: the canvas polygon operation with a line color
present and line width 2 issues no stroke command at all; it throws a
TypeError before reaching the draw routine, so the claimed
stroke-iff-line-color-and-nonzero-width fails at polygon. -/
theorem C6_counterexample_polygon_never_strokes :
    styleC6cx.lineColor.isSome = true ∧
    styleC6cx.lineWidth.getD 1 ≠ 0 ∧
    canvasPolygon ctxInit [0, 0, 10, 10] (Option.some styleC6cx)
      = Except.error (JsErr.typeError "ctx.beginPath is not a function") ∧
    (canvasPolygon ctxInit [0, 0, 10, 10] (Option.some styleC6cx)).isOk = false :=
  ⟨rfl, by decide, rfl, rfl⟩

/-- C6 amended: for every raster shape operation except polygon (which
always throws a TypeError through its misdirected internal polyline
call), fill is painted before stroke and a stroke command is issued
exactly when a line color is present and the effective line width
(defaulting to 1) is nonzero; an issued stroke uses the defaults 1,
round and butt, identical to the stroke-width, stroke-linejoin and
stroke-linecap attribute values the svg backend always writes, and
resolves its color by the same opacity-override scheme as the fill. -/
theorem C6_amended_stroke_iff_except_polygon (st : Style) (ctx : Ctx) (el : Node)
    (cx cy r rx ry x y w h x1 y1 x2 y2 : ℚ) (coords : List ℚ) :
    ((canvasCircle ctx cx cy r (Option.some st)).map Ctx.ops
      = Except.ok (ctx.ops
          ++ fillPart st [PathCmd.arc (Option.some cx) (Option.some cy) (Option.some r)]
          ++ strokePart st [PathCmd.arc (Option.some cx) (Option.some cy) (Option.some r)])) ∧
    ((canvasEllipse ctx cx cy rx ry (Option.some st)).map Ctx.ops
      = Except.ok (ctx.ops
          ++ fillPart st (ellipseTrace cx cy rx ry)
          ++ strokePart st (ellipseTrace cx cy rx ry))) ∧
    ((canvasRect ctx x y w h (Option.some st)).map Ctx.ops
      = Except.ok (ctx.ops
          ++ fillPart st [PathCmd.rectPath (Option.some x) (Option.some y) (Option.some w) (Option.some h)]
          ++ strokePart st [PathCmd.rectPath (Option.some x) (Option.some y) (Option.some w) (Option.some h)])) ∧
    ((canvasLine ctx x1 y1 x2 y2 (Option.some st)).map Ctx.ops
      = Except.ok (ctx.ops
          ++ fillPart st [PathCmd.moveTo (Option.some x1) (Option.some y1),
                          PathCmd.lineTo (Option.some x2) (Option.some y2)]
          ++ strokePart st [PathCmd.moveTo (Option.some x1) (Option.some y1),
                            PathCmd.lineTo (Option.some x2) (Option.some y2)])) ∧
    ((canvasPolyline ctx coords (Option.some st)).map Ctx.ops
      = Except.ok (ctx.ops
          ++ fillPart st (polyTracePath coords true)
          ++ strokePart st (polyTracePath coords true))) ∧
    (canvasPolygon ctx coords (Option.some st)
      = Except.error (JsErr.typeError "ctx.beginPath is not a function")) ∧
    ((svgDraw el (Option.some st)).map (fun n => n.attrs "stroke-width")
      = Except.ok (Option.some (AttrVal.num (st.lineWidth.getD 1)))) ∧
    ((svgDraw el (Option.some st)).map (fun n => n.attrs "stroke-linejoin")
      = Except.ok (Option.some (AttrVal.str (st.lineJoin.getD "round")))) ∧
    ((svgDraw el (Option.some st)).map (fun n => n.attrs "stroke-linecap")
      = Except.ok (Option.some (AttrVal.str (st.lineCap.getD "butt")))) := by
  refine ⟨?_, ?_, ?_, ?_, ?_, rfl, ?_, ?_, ?_⟩
  · simp only [canvasCircle, beginPath, addCmd, canvasDraw_ops_parts]
    simp
  · simp only [canvasEllipse, beginPath, addCmd, canvasDraw_ops_parts]
    simp [ellipseTrace]
  · simp only [canvasRect, beginPath, addCmd, canvasDraw_ops_parts]
    simp
  · simp only [canvasLine, beginPath, addCmd, canvasDraw_ops_parts]
    simp
  · simp only [canvasPolyline, canvasPolylineJs, polyTraceGo_eq, beginPath, canvasDraw_ops_parts]
    simp
  all_goals simp [svgDraw, svgDrawCore, domAttr, setAttribute, Except.map]

/-- C7: for every even-length coordinate list the svg polyline and
polygon set the points attribute to exactly the pair string of the claim,
and the empty list renders as the empty string. -/
theorem C7_points_attribute_format (el : Node) (coords : List ℚ) (st : Style)
    (h : coords.length % 2 = 0) :
    ((svgPolyline el coords (Option.some st)).map (fun n => n.attrs "points")
      = Except.ok (Option.some (AttrVal.str (specPointString (pairsOf coords))))) ∧
    ((svgPolygon el coords (Option.some st)).map (fun n => n.attrs "points")
      = Except.ok (Option.some (AttrVal.str (specPointString (pairsOf coords))))) ∧
    getCoordsAsString [] = "" := by
  have key := getCoordsAsString_even coords h
  refine ⟨?_, ?_, rfl⟩ <;>
    simp [svgPolyline, svgPolygon, svgDraw, svgDrawCore, domAttr, setAttribute, Except.map, key]

/-- Witness for C7 at the concrete list with the two pairs (1,2), (3,4). -/
theorem C7_points_attribute_format_witness :
    (svgPolyline (domCreateElement "polyline") [1, 2, 3, 4] (Option.some styleEmpty)).map
        (fun n => n.attrs "points")
      = Except.ok (Option.some (AttrVal.str "1 2,3 4")) := by
  have h := (C7_points_attribute_format (domCreateElement "polyline") [1, 2, 3, 4] styleEmpty
    (by decide)).1
  exact h.trans (by rfl)

/-- C8: the selection probes the vector backend first and the raster
backend second, caches the result of the first query, and in an
environment supporting neither backend resolves to none, after which any
draw dispatch fails with the configuration error instead of silently
doing nothing. -/
theorem C8_backend_selection_order_cache_and_failure (e : Env) :
    (svgIsSupported e = true → probeBackends e = Option.some BackendId.svg) ∧
    (svgIsSupported e = false → canvasIsSupported e = true →
      probeBackends e = Option.some BackendId.canvas) ∧
    (selectStep e (selectStep e SelState.untested) = selectStep e SelState.untested) ∧
    (svgIsSupported e = false → canvasIsSupported e = false →
      selectStep e SelState.untested = SelState.resolved Option.none ∧
      dispatchDraw e SelState.untested
        = Except.error (DrawFailure.configurationError "no supported rendering backend") ∧
      dispatchDraw e (SelState.resolved Option.none)
        = Except.error (DrawFailure.configurationError "no supported rendering backend")) := by
  refine ⟨?_, ?_, ?_, ?_⟩
  · intro h1
    simp [probeBackends, h1]
  · intro h1 h2
    simp [probeBackends, h1, h2]
  · simp [selectStep]
  · intro h1 h2
    refine ⟨?_, ?_, ?_⟩ <;> simp [selectStep, dispatchDraw, probeBackends, h1, h2]

/-- Witness for C8 in three concrete environments: both supported, only
canvas supported, neither supported. -/
theorem C8_backend_selection_order_cache_and_failure_witness :
    probeBackends envBoth = Option.some BackendId.svg ∧
    probeBackends envCanvasOnly = Option.some BackendId.canvas ∧
    selectStep envNone SelState.untested = SelState.resolved Option.none ∧
    dispatchDraw envNone (SelState.resolved Option.none)
      = Except.error (DrawFailure.configurationError "no supported rendering backend") := by
  obtain ⟨h1, -, -, -⟩ := C8_backend_selection_order_cache_and_failure envBoth
  obtain ⟨-, h2, -, -⟩ := C8_backend_selection_order_cache_and_failure envCanvasOnly
  obtain ⟨-, -, -, h4⟩ := C8_backend_selection_order_cache_and_failure envNone
  exact ⟨h1 rfl, h2 rfl rfl, (h4 rfl rfl).1, (h4 rfl rfl).2.2⟩

/-- C9: calling any shape operation of either backend with the style
argument omitted throws a TypeError instead of drawing with the
documented defaults; for the canvas polygon the TypeError comes from its
misdirected internal polyline call rather than the style access. -/
theorem C9_omitted_style_throws_TypeError (el : Node) (ctx : Ctx)
    (cx cy r rx ry x y w h x1 y1 x2 y2 : ℚ) (coords : List ℚ) :
    svgCircle el cx cy r Option.none
      = Except.error (JsErr.typeError "Cannot read property fillColor of undefined") ∧
    svgEllipse el cx cy rx ry Option.none
      = Except.error (JsErr.typeError "Cannot read property fillColor of undefined") ∧
    svgRect el x y w h Option.none
      = Except.error (JsErr.typeError "Cannot read property fillColor of undefined") ∧
    svgLine el x1 y1 x2 y2 Option.none
      = Except.error (JsErr.typeError "Cannot read property fillColor of undefined") ∧
    svgPolyline el coords Option.none
      = Except.error (JsErr.typeError "Cannot read property fillColor of undefined") ∧
    svgPolygon el coords Option.none
      = Except.error (JsErr.typeError "Cannot read property fillColor of undefined") ∧
    canvasCircle ctx cx cy r Option.none
      = Except.error (JsErr.typeError "Cannot read property fillColor of undefined") ∧
    canvasEllipse ctx cx cy rx ry Option.none
      = Except.error (JsErr.typeError "Cannot read property fillColor of undefined") ∧
    canvasRect ctx x y w h Option.none
      = Except.error (JsErr.typeError "Cannot read property fillColor of undefined") ∧
    canvasLine ctx x1 y1 x2 y2 Option.none
      = Except.error (JsErr.typeError "Cannot read property fillColor of undefined") ∧
    canvasPolyline ctx coords Option.none
      = Except.error (JsErr.typeError "Cannot read property fillColor of undefined") ∧
    canvasPolygon ctx coords Option.none
      = Except.error (JsErr.typeError "ctx.beginPath is not a function") :=
  ⟨rfl, rfl, rfl, rfl, rfl, rfl, rfl, rfl, rfl, rfl, rfl, rfl⟩

/-- C10: the svg polygon operation is definitionally the very same
computation as the svg polyline operation; no path-closing step
distinguishes them. -/
theorem C10_svg_polygon_equals_polyline (el : Node) (coords : List ℚ) (style : Option Style) :
    svgPolygon el coords style = svgPolyline el coords style :=
  rfl
